import Mathlib

/-!
Shallow embedding of the ACM8623/ACM8635 audio amplifier driver control
logic. Pure data tables, register-write traces and the device state record
are translated directly from the two C source files; the two chip variants
are captured by a `Variant` record holding the five per-variant parameters
(volume table, preboot sequence, default configuration blob, gain page,
per-channel register offsets).
-/

set_option maxRecDepth 100000

namespace Acm

/-- Register addresses, from the defines at the top of both files. -/
def REG_PAGE : Nat := 0x00

def REG_DEVICE_STATE : Nat := 0x04

def REG_STATE_REPORT : Nat := 0x16

def REG_GLOBAL_FAULT1 : Nat := 0x17

def REG_GLOBAL_FAULT2 : Nat := 0x18

def REG_GLOBAL_FAULT3 : Nat := 0x19

/-- DEVICE_STATE register values. -/
def DEVICE_STATE_HIZ : Nat := 0x02

def DEVICE_STATE_PLAY : Nat := 0x03

def DEVICE_STATE_MUTE : Nat := 0x0C

def acm8623_dsp_cfg_preboot : List Nat := [
  0x00, 0x00, 0x04, 0x00, 0xfc, 0x86, 0xfd, 0x22, 0xfe, 0x25, 0x00, 0x00,
  0x00, 0x00, 0x00, 0x00, 0x00, 0x00, 0x00, 0x00, 0x00, 0x00, 0x00, 0x00
]

def acm8623_dsp_cfg_default : List Nat := [
  0x00, 0x00, 0x04, 0x00, 0x00, 0x00, 0x00, 0x00, 0x00, 0x00, 0x00, 0x00,
  0x00, 0x00, 0x00, 0x0b, 0x5c, 0x80, 0x5d, 0x9e, 0x5e, 0x02, 0x5f, 0x9e,
  0x60, 0x80, 0x61, 0x9e, 0x62, 0x03, 0x63, 0x9e, 0x00, 0x05, 0xb0, 0x08,
  0xb1, 0x00, 0xb2, 0x00, 0xb3, 0x00, 0xb4, 0x00, 0xb5, 0x00, 0xb6, 0x00,
  0xb7, 0x00, 0xb8, 0x00, 0xb9, 0x00, 0xba, 0x00, 0xbb, 0x00, 0xbc, 0x08,
  0xbd, 0x00, 0xbe, 0x00, 0xbf, 0x00, 0xc0, 0x08, 0xc1, 0x00, 0xc2, 0x00,
  0xc3, 0x00, 0xc4, 0x08, 0xc5, 0x00, 0xc6, 0x00, 0xc7, 0x00, 0xc8, 0x00,
  0xc9, 0xe2, 0xca, 0xc4, 0xcb, 0x6b, 0x00, 0x06, 0x38, 0x08, 0x39, 0x00,
  0x3a, 0x00, 0x3b, 0x00, 0x3c, 0x00, 0x3d, 0x00, 0x3e, 0x00, 0x3f, 0x00,
  0x40, 0x00, 0x41, 0x00, 0x42, 0x00, 0x43, 0x00, 0x44, 0x00, 0x45, 0x00,
  0x46, 0x00, 0x47, 0x00, 0x48, 0x00, 0x49, 0x00, 0x4a, 0x00, 0x4b, 0x00,
  0xb0, 0x08, 0xb1, 0x00, 0xb2, 0x00, 0xb3, 0x00, 0xb4, 0x00, 0xb5, 0x00,
  0xb6, 0x00, 0xb7, 0x00, 0xb8, 0x00, 0xb9, 0x00, 0xba, 0x00, 0xbb, 0x00,
  0xbc, 0x00, 0xbd, 0x00, 0xbe, 0x00, 0xbf, 0x00, 0xc0, 0x00, 0xc1, 0x00,
  0xc2, 0x00, 0xc3, 0x00, 0x4c, 0x08, 0x4d, 0x00, 0x4e, 0x00, 0x4f, 0x00,
  0x50, 0x00, 0x51, 0x00, 0x52, 0x00, 0x53, 0x00, 0x54, 0x00, 0x55, 0x00,
  0x56, 0x00, 0x57, 0x00, 0x58, 0x00, 0x59, 0x00, 0x5a, 0x00, 0x5b, 0x00,
  0x5c, 0x00, 0x5d, 0x00, 0x5e, 0x00, 0x5f, 0x00, 0xc4, 0x08, 0xc5, 0x00,
  0xc6, 0x00, 0xc7, 0x00, 0xc8, 0x00, 0xc9, 0x00, 0xca, 0x00, 0xcb, 0x00,
  0xcc, 0x00, 0xcd, 0x00, 0xce, 0x00, 0xcf, 0x00, 0xd0, 0x00, 0xd1, 0x00,
  0xd2, 0x00, 0xd3, 0x00, 0xd4, 0x00, 0xd5, 0x00, 0xd6, 0x00, 0xd7, 0x00,
  0x10, 0x08, 0x11, 0x00, 0x12, 0x00, 0x13, 0x00, 0x14, 0x00, 0x15, 0x00,
  0x16, 0x00, 0x17, 0x00, 0x18, 0x00, 0x19, 0x00, 0x1a, 0x00, 0x1b, 0x00,
  0x1c, 0x00, 0x1d, 0x00, 0x1e, 0x00, 0x1f, 0x00, 0x20, 0x00, 0x21, 0x00,
  0x22, 0x00, 0x23, 0x00, 0x88, 0x08, 0x89, 0x00, 0x8a, 0x00, 0x8b, 0x00,
  0x8c, 0x00, 0x8d, 0x00, 0x8e, 0x00, 0x8f, 0x00, 0x90, 0x00, 0x91, 0x00,
  0x92, 0x00, 0x93, 0x00, 0x94, 0x00, 0x95, 0x00, 0x96, 0x00, 0x97, 0x00,
  0x98, 0x00, 0x99, 0x00, 0x9a, 0x00, 0x9b, 0x00, 0x24, 0x08, 0x25, 0x00,
  0x26, 0x00, 0x27, 0x00, 0x28, 0x00, 0x29, 0x00, 0x2a, 0x00, 0x2b, 0x00,
  0x2c, 0x00, 0x2d, 0x00, 0x2e, 0x00, 0x2f, 0x00, 0x30, 0x00, 0x31, 0x00,
  0x32, 0x00, 0x33, 0x00, 0x34, 0x00, 0x35, 0x00, 0x36, 0x00, 0x37, 0x00,
  0x9c, 0x08, 0x9d, 0x00, 0x9e, 0x00, 0x9f, 0x00, 0xa0, 0x00, 0xa1, 0x00,
  0xa2, 0x00, 0xa3, 0x00, 0xa4, 0x00, 0xa5, 0x00, 0xa6, 0x00, 0xa7, 0x00,
  0xa8, 0x00, 0xa9, 0x00, 0xaa, 0x00, 0xab, 0x00, 0xac, 0x00, 0xad, 0x00,
  0xae, 0x00, 0xaf, 0x00, 0x00, 0x05, 0xe4, 0x08, 0xe5, 0x00, 0xe6, 0x00,
  0xe7, 0x00, 0xe8, 0x00, 0xe9, 0x00, 0xea, 0x00, 0xeb, 0x00, 0xec, 0x00,
  0xed, 0x00, 0xee, 0x00, 0xef, 0x00, 0xf0, 0x00, 0xf1, 0x00, 0xf2, 0x00,
  0xf3, 0x00, 0xf4, 0x00, 0xf5, 0x00, 0xf6, 0x00, 0xf7, 0x00, 0x00, 0x06,
  0x60, 0x08, 0x61, 0x00, 0x62, 0x00, 0x63, 0x00, 0x64, 0x00, 0x65, 0x00,
  0x66, 0x00, 0x67, 0x00, 0x68, 0x00, 0x69, 0x00, 0x6a, 0x00, 0x6b, 0x00,
  0x6c, 0x00, 0x6d, 0x00, 0x6e, 0x00, 0x6f, 0x00, 0x70, 0x00, 0x71, 0x00,
  0x72, 0x00, 0x73, 0x00, 0x00, 0x05, 0xf8, 0x08, 0xf9, 0x00, 0xfa, 0x00,
  0xfb, 0x00, 0xfc, 0x00, 0xfd, 0x00, 0xfe, 0x00, 0xff, 0x00, 0x00, 0x06,
  0x04, 0x00, 0x05, 0x00, 0x06, 0x00, 0x07, 0x00, 0x08, 0x00, 0x09, 0x00,
  0x0a, 0x00, 0x0b, 0x00, 0x0c, 0x00, 0x0d, 0x00, 0x0e, 0x00, 0x0f, 0x00,
  0x74, 0x08, 0x75, 0x00, 0x76, 0x00, 0x77, 0x00, 0x78, 0x00, 0x79, 0x00,
  0x7a, 0x00, 0x7b, 0x00, 0x7c, 0x00, 0x7d, 0x00, 0x7e, 0x00, 0x7f, 0x00,
  0x80, 0x00, 0x81, 0x00, 0x82, 0x00, 0x83, 0x00, 0x84, 0x00, 0x85, 0x00,
  0x86, 0x00, 0x87, 0x00, 0xd8, 0x00, 0xd9, 0x22, 0xda, 0x1d, 0xdb, 0x95,
  0xdc, 0x04, 0xdd, 0x0c, 0xde, 0x37, 0xdf, 0x14, 0xe0, 0x1c, 0xe1, 0x1b,
  0xe2, 0xf0, 0xe3, 0x41, 0xe4, 0x00, 0xe5, 0x22, 0xe6, 0x1d, 0xe7, 0x95,
  0x00, 0x04, 0x04, 0x08, 0x05, 0x13, 0x06, 0x85, 0x07, 0x62, 0x0c, 0x00,
  0x0d, 0x01, 0x0e, 0x5d, 0x0f, 0x86, 0x08, 0x00, 0x09, 0x46, 0x0a, 0xff,
  0x0b, 0x51, 0x10, 0x05, 0x11, 0x39, 0x12, 0x47, 0x13, 0xa6, 0x14, 0x7a,
  0x15, 0xc6, 0x16, 0xb8, 0x17, 0x5a, 0x00, 0x00, 0x04, 0x00, 0x00, 0x01,
  0x01, 0x00, 0x00, 0x00, 0x11, 0xc3, 0x02, 0x00, 0x03, 0x05, 0x01, 0x84,
  0x00, 0x00, 0x04, 0x02, 0x00, 0x00, 0x00, 0x00, 0x00, 0x00, 0x00, 0x00,
  0x00, 0x00, 0x00, 0x00, 0x00, 0x00, 0x00, 0x00, 0x00, 0x00, 0x04, 0x03
]

def acm8623_volume : List Nat := [
  0x000001A8, 0x000001DC, 0x00000216, 0x00000258, 0x000002A1, 0x000002F3,
  0x0000034F, 0x000003B6, 0x0000042A, 0x000004AC, 0x0000053E, 0x000005E2,
  0x0000069A, 0x00000768, 0x0000084F, 0x00000953, 0x00000A76, 0x00000BBD,
  0x00000D2B, 0x00000EC7, 0x00001094, 0x0000129A, 0x000014DF, 0x0000176B,
  0x00001A47, 0x00001D7C, 0x00002115, 0x0000251E, 0x000029A5, 0x00002EBA,
  0x0000346E, 0x00003AD3, 0x00004201, 0x00004A0F, 0x00005318, 0x00005D3C,
  0x0000689C, 0x00007560, 0x000083B2, 0x000093C4, 0x0000A5CB, 0x0000BA06,
  0x0000D0B9, 0x0000EA31, 0x000106C4, 0x000126D4, 0x00014ACE, 0x0001732B,
  0x0001A075, 0x0001D346, 0x00020C4A, 0x00024C43, 0x0002940A, 0x0002E494,
  0x00033EF1, 0x0003A455, 0x00041618, 0x000495BC, 0x000524F4, 0x0005C5A5,
  0x000679F2, 0x0007443E, 0x0008273A, 0x000925E9, 0x000A43AA, 0x000B844A,
  0x000CEC09, 0x000E7FAD, 0x00104491, 0x001240B9, 0x00147AE1, 0x0016FA9C,
  0x0019C865, 0x001CEDC4, 0x00207568, 0x00246B4E, 0x0028DCEC, 0x002DD959,
  0x00337185, 0x0039B872, 0x0040C371, 0x0048AA71, 0x00518848, 0x005B7B16,
  0x0066A4A5, 0x00732AE2, 0x00813856, 0x0090FCBF, 0x00A2ADAD, 0x00B68738,
  0x00CCCCCD, 0x00E5CA15, 0x0101D3F3, 0x012149A6, 0x0144960C, 0x016C310E,
  0x0198A135, 0x01CA7D76, 0x02026F31, 0x0241346F, 0x0287A26C, 0x02D6A867,
  0x032F52D0, 0x0392CED9, 0x04026E74, 0x047FACCF, 0x050C335D, 0x05A9DF7B,
  0x065AC8C3, 0x0721482C, 0x08000000, 0x08F9E4D0, 0x0A12477C, 0x0B4CE07C,
  0x0CADDC7B, 0x0E39EA8E, 0x0FF64C17, 0x11E8E6A1, 0x141857EA, 0x168C0C5A,
  0x194C583B, 0x1C629406, 0x1FD93C1F, 0x23BC1479, 0x28185086, 0x2CFCC016,
  0x327A01A4, 0x38A2BACB, 0x3F8BD79E, 0x474CD1B8, 0x50000000, 0x59C2F01D,
  0x64B6CADD, 0x7100C4D8, 0x7ECA9CD2
]

def acm8635_dsp_cfg_preboot : List Nat := [
  0x00, 0x00, 0x04, 0x00, 0xfc, 0x86, 0xfd, 0x25, 0xfe, 0x53, 0x00, 0x01,
  0x02, 0x20, 0x00, 0x00, 0x00, 0x00, 0x00, 0x00, 0x00, 0x00, 0x00, 0x00
]

def acm8635_dsp_cfg_default : List Nat := [
  0x00, 0x00, 0x04, 0x00, 0x00, 0x00, 0x00, 0x00, 0x00, 0x00, 0x00, 0x00,
  0x00, 0x00, 0x00, 0x09, 0xe4, 0x80, 0xe5, 0x9e, 0xe6, 0x02, 0xe7, 0x9e,
  0xe8, 0x80, 0xe9, 0x9e, 0xea, 0x03, 0xeb, 0x9e, 0x00, 0x04, 0x94, 0x00,
  0x95, 0xe2, 0x96, 0xc4, 0x97, 0x6b, 0x28, 0x00, 0x29, 0x40, 0x2a, 0x26,
  0x2b, 0xe7, 0x2c, 0x00, 0x2d, 0x40, 0x2e, 0x26, 0x2f, 0xe7, 0x00, 0x0c,
  0x60, 0x00, 0x61, 0x1b, 0x62, 0x4b, 0x63, 0x98, 0x64, 0x00, 0x65, 0x22,
  0x66, 0x1d, 0x67, 0x95, 0x68, 0x00, 0x69, 0x06, 0x6a, 0xd3, 0x6b, 0x72,
  0x6c, 0x00, 0x6d, 0x00, 0x6e, 0x00, 0x6f, 0x00, 0x70, 0x00, 0x71, 0x00,
  0x72, 0x00, 0x73, 0x00, 0x74, 0xff, 0x75, 0x81, 0x76, 0x47, 0x77, 0xae,
  0x78, 0xf5, 0x79, 0xb3, 0x7a, 0xb7, 0x7b, 0xc8, 0x7c, 0xfe, 0x7d, 0x01,
  0x7e, 0xc0, 0x7f, 0x79, 0x80, 0x00, 0x81, 0x00, 0x82, 0x00, 0x83, 0x00,
  0x84, 0x00, 0x85, 0x00, 0x86, 0x00, 0x87, 0x00, 0x00, 0x01, 0x01, 0x00,
  0x00, 0x00, 0x11, 0x03, 0x02, 0x00, 0x06, 0xb0, 0x05, 0xf0, 0x28, 0x03,
  0x03, 0x05, 0x01, 0x84, 0x00, 0x01, 0x09, 0x04, 0x00, 0x00, 0x04, 0x02,
  0x00, 0x00, 0x00, 0x00, 0x00, 0x00, 0x00, 0x00, 0x00, 0x00, 0x00, 0x00,
  0x00, 0x00, 0x00, 0x00, 0x00, 0x00, 0x04, 0x03
]

def acm8635_volume : List Nat := [
  0x0000001B, 0x0000001E, 0x00000021, 0x00000025, 0x0000002A, 0x0000002F,
  0x00000035, 0x0000003B, 0x00000043, 0x0000004B, 0x00000054, 0x0000005E,
  0x0000006A, 0x00000076, 0x00000085, 0x00000095, 0x000000A7, 0x000000BC,
  0x000000D3, 0x000000EC, 0x00000109, 0x0000012A, 0x0000014E, 0x00000177,
  0x000001A4, 0x000001D8, 0x00000211, 0x00000252, 0x0000029A, 0x000002EC,
  0x00000347, 0x000003AD, 0x00000420, 0x000004A1, 0x00000532, 0x000005D4,
  0x0000068A, 0x00000756, 0x0000083B, 0x0000093C, 0x00000A5D, 0x00000BA0,
  0x00000D0C, 0x00000EA3, 0x0000106C, 0x0000126D, 0x000014AD, 0x00001733,
  0x00001A07, 0x00001D34, 0x000020C5, 0x000024C4, 0x00002941, 0x00002E49,
  0x000033EF, 0x00003A45, 0x00004161, 0x0000495C, 0x0000524F, 0x00005C5A,
  0x0000679F, 0x00007444, 0x00008274, 0x0000925F, 0x0000A43B, 0x0000B845,
  0x0000CEC1, 0x0000E7FB, 0x00010449, 0x0001240C, 0x000147AE, 0x00016FAA,
  0x00019C86, 0x0001CEDC, 0x00020756, 0x000246B5, 0x00028DCF, 0x0002DD96,
  0x00033718, 0x00039B87, 0x00040C37, 0x00048AA7, 0x00051884, 0x0005B7B1,
  0x00066A4A, 0x000732AE, 0x00081385, 0x00090FCC, 0x000A2ADB, 0x000B6873,
  0x000CCCCD, 0x000E5CA1, 0x00101D3F, 0x0012149A, 0x00144961, 0x0016C311,
  0x00198A13, 0x001CA7D7, 0x002026F3, 0x00241347, 0x00287A27, 0x002D6A86,
  0x0032F52D, 0x00392CEE, 0x004026E7, 0x0047FACD, 0x0050C336, 0x005A9DF8,
  0x0065AC8C, 0x00721483, 0x00800000, 0x008F9E4D, 0x00A12478, 0x00B4CE08,
  0x00CADDC8, 0x00E39EA9, 0x00FF64C1, 0x011E8E6A, 0x0141857F, 0x0168C0C6,
  0x0194C584, 0x01C62940, 0x01FD93C2, 0x023BC148, 0x02818508, 0x02CFCC01,
  0x0327A01A, 0x038A2BAD, 0x03F8BD7A, 0x0474CD1B, 0x05000000, 0x059C2F02,
  0x064B6CAE, 0x07100C4D, 0x07ECA9CD, 0x08E43299, 0x09F9EF8E, 0x0B319025,
  0x0C8F36F2, 0x0E1787B8, 0x0FCFB725, 0x11BD9C84, 0x13E7C594, 0x16558CCB,
  0x190F3254, 0x1C1DF80E, 0x1F8C4107, 0x2365B4BF, 0x27B766C2, 0x2C900313,
  0x32000000, 0x3819D612, 0x3EF23ECA, 0x46A07B07, 0x4F3EA203, 0x58E9F9F9,
  0x63C35B8E, 0x6FEFA16D, 0x7D982575
]

/-- The five per-variant parameters (spec section 6): volume table, preboot
byte sequence, default configuration blob, page-select value for the gain
registers, and the two per-channel register offsets. -/
structure Variant where
  volume : List Nat
  prebootSeq : List Nat
  defaultCfg : List Nat
  gainPage : Nat
  leftOffset : Nat
  rightOffset : Nat
deriving DecidableEq

/-- Variant record for the ACM8623: gain page 0x05, left at 0xc4, right at
0xc0 (from acm8623_refresh). -/
def acm8623V : Variant :=
  ⟨acm8623_volume, acm8623_dsp_cfg_preboot, acm8623_dsp_cfg_default,
   0x05, 0xc4, 0xc0⟩

/-- Variant record for the ACM8635: gain page 0x04, left at 0x7c, right at
0x80 (from acm8635_refresh). -/
def acm8635V : Variant :=
  ⟨acm8635_volume, acm8635_dsp_cfg_preboot, acm8635_dsp_cfg_default,
   0x04, 0x7c, 0x80⟩

/-- One observable regmap transaction: regmap_write, regmap_bulk_write or
regmap_read. -/
inductive RegEvent where
  | write (addr val : Nat)
  | bulkWrite (addr : Nat) (bytes : List Nat)
  | read (addr : Nat)
deriving DecidableEq

/-- The mutable per-device record, from struct acm8623_priv / acm8635_priv
(the fields the control logic touches). -/
structure DeviceState where
  dsp_cfg_data : Option (List Nat)
  vol0 : Int
  vol1 : Int
  is_powered : Bool
  is_muted : Bool
deriving DecidableEq

/-- The byte-store loop of set_dsp_scale: v[3-i] gets the low byte of x,
then x is shifted right by 8, four times; the accumulator builds the array
back to front exactly as the loop stores it. -/
def storeBytes : Nat → Nat → List Nat → List Nat
  | 0, _, acc => acc
  | n + 1, x, acc => storeBytes n (x / 256) (x % 256 :: acc)

/-- Table lookup acm86xx_volume[vol], as performed by set_dsp_scale. -/
def table_lookup (V : Variant) (v : Int) : Nat :=
  V.volume.getD v.toNat 0

/-- set_dsp_scale: one regmap_bulk_write of the four bytes of the table
gain value at the given offset. -/
def set_dsp_scale (V : Variant) (offset : Nat) (vol : Int) : RegEvent :=
  RegEvent.bulkWrite offset (storeBytes 4 (table_lookup V vol) [])

/-- acm8623_refresh / acm8635_refresh: page select, two bulk gain writes,
page restore, DEVICE_STATE write of (muted ? MUTE : 0) | PLAY. -/
def refresh (V : Variant) (s : DeviceState) : List RegEvent :=
  [RegEvent.write REG_PAGE V.gainPage,
   set_dsp_scale V V.leftOffset s.vol0,
   set_dsp_scale V V.rightOffset s.vol1,
   RegEvent.write REG_PAGE 0x00,
   RegEvent.write REG_DEVICE_STATE
     ((if s.is_muted then DEVICE_STATE_MUTE else 0) ||| DEVICE_STATE_PLAY)]

/-- volume_is_valid: v between VOLUME_MIN = 0 and VOLUME_MAX = N - 1. -/
def volume_is_valid (V : Variant) (v : Int) : Bool :=
  decide (0 ≤ v) && decide (v ≤ (V.volume.length : Int) - 1)

/-- acm86xx_vol_put: returns -EINVAL when either index is invalid, 0 when
both already match (no write), 1 when the pair changed (refresh only when
powered); second component is the new device state and third the emitted
register traffic. -/
def vol_put (V : Variant) (s : DeviceState) (l r : Int) :
    Int × DeviceState × List RegEvent :=
  if ¬(volume_is_valid V l = true ∧ volume_is_valid V r = true) then
    (-22, s, [])
  else if s.vol0 = l ∧ s.vol1 = r then
    (0, s, [])
  else
    let s2 : DeviceState := { s with vol0 := l, vol1 := r }
    (1, s2, if s.is_powered then refresh V s2 else [])

/-- acm86xx_mute: set is_muted unconditionally, refresh when powered. -/
def mute_stream (V : Variant) (s : DeviceState) (m : Bool) :
    DeviceState × List RegEvent :=
  let s2 : DeviceState := { s with is_muted := m }
  (s2, if s2.is_powered then refresh V s2 else [])

/-- send_cfg: consume the byte sequence two at a time, regmap_write(s[i],
s[i+1]) for i = 0, 2, ... while i + 1 < len; a trailing odd byte falls out
of the loop bound. -/
def send_cfg : List Nat → List RegEvent
  | a :: b :: rest => RegEvent.write a b :: send_cfg rest
  | _ => []

/-- do_work: preboot sequence replay, then the override blob when present
else the built-in default, then is_powered := true and one refresh of the
resulting state. -/
def do_work (V : Variant) (s : DeviceState) : DeviceState × List RegEvent :=
  let cfg := match s.dsp_cfg_data with
    | some dat => dat
    | none => V.defaultCfg
  let s2 : DeviceState := { s with is_powered := true }
  (s2, send_cfg V.prebootSeq ++ send_cfg cfg ++ refresh V s2)

/-- acm86xx_dac_event on SND_SOC_DAPM_PRE_PMD, state/trace part: when
powered, clear is_powered, select page 0, read the four fault registers,
write DEVICE_STATE := HIZ; otherwise leave everything alone. The function
returns 0 in both cases. -/
def dac_event (s : DeviceState) : Int × DeviceState × List RegEvent :=
  if s.is_powered then
    (0, { s with is_powered := false },
     [RegEvent.write REG_PAGE 0x00,
      RegEvent.read REG_STATE_REPORT,
      RegEvent.read REG_GLOBAL_FAULT1,
      RegEvent.read REG_GLOBAL_FAULT2,
      RegEvent.read REG_GLOBAL_FAULT3,
      RegEvent.write REG_DEVICE_STATE DEVICE_STATE_HIZ])
  else
    (0, s, [])

/-- The 0 dB volume index, VOLUME_0DB = 110 in both files. -/
def ACM_VOLUME_0DB : Int := 110

/-- acm86xx_i2c_probe, firmware-handling and state-initialisation part:
a present firmware blob of size < 2 or odd size makes probe fail with
-EINVAL; a valid blob is stored as dsp_cfg_data; an absent blob leaves
dsp_cfg_data null. Both volume indices start at the 0 dB index, and the
zero-allocated record starts unpowered and unmuted. -/
def i2c_probe (fw : Option (List Nat)) : Except Int DeviceState :=
  match fw with
  | some dat =>
      if dat.length < 2 ∨ dat.length % 2 = 1 then
        Except.error (-22)
      else
        Except.ok ⟨some dat, ACM_VOLUME_0DB, ACM_VOLUME_0DB, false, false⟩
  | none =>
      Except.ok ⟨none, ACM_VOLUME_0DB, ACM_VOLUME_0DB, false, false⟩

/-- The device state produced by a probe with no override blob. -/
def probeDefaultState : DeviceState :=
  ⟨none, ACM_VOLUME_0DB, ACM_VOLUME_0DB, false, false⟩

/-- System-level state: the device record, whether a boot work item is
pending on the workqueue, and the cumulative register trace. -/
structure SysState where
  dev : DeviceState
  bootPending : Bool
  trace : List RegEvent
deriving DecidableEq

/-- Volume-control write at system level. -/
def sys_vol_put (V : Variant) (s : SysState) (l r : Int) : SysState :=
  ⟨(vol_put V s.dev l r).2.1, s.bootPending,
   s.trace ++ (vol_put V s.dev l r).2.2⟩

/-- Mute-control write at system level. -/
def sys_mute (V : Variant) (s : SysState) (m : Bool) : SysState :=
  ⟨(mute_stream V s.dev m).1, s.bootPending,
   s.trace ++ (mute_stream V s.dev m).2⟩

/-- acm86xx_trigger on a start-class command: schedule_work, making the
boot work item pending; no register traffic. -/
def sys_trigger (s : SysState) : SysState :=
  ⟨s.dev, true, s.trace⟩

/-- The pending boot work item runs to completion. do_work holds the
device mutex for its whole body, so its effect is atomic. -/
def sys_run_work (V : Variant) (s : SysState) : SysState :=
  ⟨(do_work V s.dev).1, false, s.trace ++ (do_work V s.dev).2⟩

/-- acm86xx_dac_event on PRE_PMD at system level: cancel_work_sync removes
any still-pending boot work item, then the powered check and shutdown
writes run. -/
def sys_dac_event (s : SysState) : SysState :=
  ⟨(dac_event s.dev).2.1, false, s.trace ++ (dac_event s.dev).2.2⟩

/-- One step of the device: any of the externally invokable operations. -/
inductive Step (V : Variant) : SysState → SysState → Prop where
  | volPut (s : SysState) (l r : Int) : Step V s (sys_vol_put V s l r)
  | muteSet (s : SysState) (m : Bool) : Step V s (sys_mute V s m)
  | trig (s : SysState) : Step V s (sys_trigger s)
  | runBoot (s : SysState) : s.bootPending = true → Step V s (sys_run_work V s)
  | shutdown (s : SysState) : Step V s (sys_dac_event s)

/-- Reachability from a successful probe. -/
inductive Reachable (V : Variant) : SysState → Prop where
  | probed (fw : Option (List Nat)) (d : DeviceState) :
      i2c_probe fw = Except.ok d → Reachable V ⟨d, false, []⟩
  | step (s t : SysState) : Reachable V s → Step V s t → Reachable V t

/-- Both stored volume indices of a device record are inside the variant's
table range [0, N-1]. -/
def volOK (V : Variant) (d : DeviceState) : Prop :=
  0 ≤ d.vol0 ∧ d.vol0 ≤ (V.volume.length : Int) - 1 ∧
  0 ≤ d.vol1 ∧ d.vol1 ≤ (V.volume.length : Int) - 1

/-- Big-endian byte decomposition of a 32-bit value, most significant byte
first, as the spec describes the bulk gain write. -/
def be4 (x : Nat) : List Nat :=
  [x / 16777216 % 256, x / 65536 % 256, x / 256 % 256, x % 256]

/-- The pairwise replay of a byte sequence described by the spec: the
writes write(s[2k], s[2k+1]) for k = 0 .. floor(len/2) - 1, in increasing
k order. -/
def pairsOf (s : List Nat) : List RegEvent :=
  (List.range (s.length / 2)).map
    (fun k => RegEvent.write (s.getD (2 * k) 0) (s.getD (2 * k + 1) 0))

/-- Induction on a list two elements at a time, matching the recursion
pattern of send_cfg. -/
def twoStepInduction {P : List Nat → Prop} (h0 : P []) (h1 : ∀ a, P [a])
    (h2 : ∀ a b t, P t → P (a :: b :: t)) : ∀ s, P s
  | [] => h0
  | [a] => h1 a
  | a :: b :: t => h2 a b t (twoStepInduction h0 h1 h2 t)

/-- The byte-store loop of set_dsp_scale produces exactly the big-endian
byte decomposition. -/
theorem storeBytes_eq_be4 (x : Nat) : storeBytes 4 x [] = be4 x := by
  simp [storeBytes, be4, Nat.div_div_eq_div_mul]

/-- send_cfg replays exactly the pairwise writes, in order. -/
theorem send_cfg_eq_pairsOf : ∀ s : List Nat, send_cfg s = pairsOf s := by
  intro s
  induction s using twoStepInduction with
  | h0 => rfl
  | h1 a => simp [send_cfg, pairsOf]
  | h2 a b t ih =>
      have hlen : (t.length + 1 + 1) / 2 = t.length / 2 + 1 := by omega
      simp only [send_cfg, ih, pairsOf, List.length_cons, hlen,
        List.range_succ_eq_map, List.map_cons, List.map_map]
      congr 1

/-- send_cfg ignores the trailing unpaired byte of an odd-length
sequence: truncating to the longest even-length head changes nothing. -/
theorem send_cfg_drop_tail :
    ∀ s : List Nat, send_cfg (s.take (2 * (s.length / 2))) = send_cfg s := by
  intro s
  induction s using twoStepInduction with
  | h0 => rfl
  | h1 a => simp [send_cfg]
  | h2 a b t ih =>
      have hlen : 2 * ((t.length + 1 + 1) / 2) = (2 * (t.length / 2) + 1) + 1 := by
        omega
      simp only [List.length_cons, hlen, List.take_succ_cons, send_cfg, ih]
/-- C7: for every byte sequence s, send_cfg issues exactly the writes
write(s[2k], s[2k+1]) for k = 0 .. floor(len/2) - 1 in increasing k order
and nothing else; a trailing unpaired byte of an odd-length sequence is
silently ignored (truncating it changes nothing). -/
theorem send_cfg_pairwise_replay (s : List Nat) :
    send_cfg s =
      (List.range (s.length / 2)).map
        (fun k => RegEvent.write (s.getD (2 * k) 0) (s.getD (2 * k + 1) 0)) ∧
    send_cfg (s.take (2 * (s.length / 2))) = send_cfg s :=
  ⟨send_cfg_eq_pairsOf s, send_cfg_drop_tail s⟩

/-- C2: every refresh emits exactly, in order, the gain-page select, a
4-byte big-endian bulk write of the left channel table value at the left
offset, the same for the right channel, the page-0 restore, and the
DEVICE_STATE write of play-bits OR mute-bits when muted (play-bits alone
otherwise); the concrete per-variant page and offsets are also pinned. -/
theorem refresh_exact_sequence :
    (∀ (V : Variant) (s : DeviceState),
      refresh V s =
        [RegEvent.write REG_PAGE V.gainPage,
         RegEvent.bulkWrite V.leftOffset (be4 (table_lookup V s.vol0)),
         RegEvent.bulkWrite V.rightOffset (be4 (table_lookup V s.vol1)),
         RegEvent.write REG_PAGE 0,
         RegEvent.write REG_DEVICE_STATE
           (if s.is_muted then DEVICE_STATE_PLAY ||| DEVICE_STATE_MUTE
            else DEVICE_STATE_PLAY)]) ∧
    acm8623V.gainPage = 0x05 ∧ acm8623V.leftOffset = 0xc4 ∧
    acm8623V.rightOffset = 0xc0 ∧ acm8635V.gainPage = 0x04 ∧
    acm8635V.leftOffset = 0x7c ∧ acm8635V.rightOffset = 0x80 := by
  refine ⟨?_, rfl, rfl, rfl, rfl, rfl, rfl⟩
  intro V s
  unfold refresh set_dsp_scale
  rw [storeBytes_eq_be4, storeBytes_eq_be4]
  cases h : s.is_muted <;>
    simp [h, DEVICE_STATE_PLAY, DEVICE_STATE_MUTE, REG_PAGE]

/-- C8: for each variant and every index i in [1, N-1], the table value at
i is strictly greater than the value at i - 1. -/
theorem volume_tables_strictly_monotone :
    (∀ i, i < acm8623_volume.length → 1 ≤ i →
       acm8623_volume.getD (i - 1) 0 < acm8623_volume.getD i 0) ∧
    (∀ i, i < acm8635_volume.length → 1 ≤ i →
       acm8635_volume.getD (i - 1) 0 < acm8635_volume.getD i 0) := by
  constructor <;> decide

/-- Witness for the monotonicity claim at index 1 of the ACM8623 table. -/
theorem volume_tables_strictly_monotone_witness :
    acm8623_volume.getD (1 - 1) 0 < acm8623_volume.getD 1 0 :=
  volume_tables_strictly_monotone.1 1 (by decide) (by decide)

/-- C9 counterexample: the ACM8635 volume table has 159 entries, which is
outside the claimed 134-158 range. -/
theorem volume_table_size_counterexample :
    acm8635_volume.length = 159 ∧
    ¬(134 ≤ acm8635_volume.length ∧ acm8635_volume.length ≤ 158) := by
  constructor <;> decide

/-- C9 amended: each variant's compiled-in volume table contains between
134 and 159 entries inclusive (135 for the ACM8623, 159 for the
ACM8635). -/
theorem volume_table_size_amended :
    (134 ≤ acm8623_volume.length ∧ acm8623_volume.length ≤ 159) ∧
    (134 ≤ acm8635_volume.length ∧ acm8635_volume.length ≤ 159) := by
  constructor <;> decide
/-- C1: with no override blob supplied, boot replays the built-in preboot
sequence as pairwise writes in list order, then the built-in default blob
the same way, then sets powered and performs exactly one refresh with both
volume indices still at the 0 dB index 110 and muted = false, whose final
DEVICE_STATE write is the play value with no mute bits, for both chip
variants. -/
theorem boot_default_blob_sequence :
    i2c_probe none = Except.ok probeDefaultState ∧
    (∀ V : Variant,
      do_work V probeDefaultState =
        ({ probeDefaultState with is_powered := true },
         pairsOf V.prebootSeq ++ pairsOf V.defaultCfg ++
           refresh V { probeDefaultState with is_powered := true })) ∧
    probeDefaultState.vol0 = 110 ∧ probeDefaultState.vol1 = 110 ∧
    probeDefaultState.is_muted = false ∧
    (do_work acm8623V probeDefaultState).2.getLast? =
      some (RegEvent.write REG_DEVICE_STATE DEVICE_STATE_PLAY) ∧
    (do_work acm8635V probeDefaultState).2.getLast? =
      some (RegEvent.write REG_DEVICE_STATE DEVICE_STATE_PLAY) := by
  refine ⟨rfl, ?_, rfl, rfl, rfl, by decide, by decide⟩
  intro V
  simp [do_work, probeDefaultState, send_cfg_eq_pairsOf]

/-- C3: power_down is a no-op returning success when already unpowered;
otherwise it clears powered, selects the base page, reads the four
diagnostic registers and writes DEVICE_STATE to high impedance, in that
order; a second consecutive power_down issues zero register traffic. -/
theorem power_down_idempotent (s : DeviceState) :
    (s.is_powered = false → dac_event s = (0, s, [])) ∧
    (s.is_powered = true →
      dac_event s =
        (0, { s with is_powered := false },
         [RegEvent.write REG_PAGE 0x00,
          RegEvent.read REG_STATE_REPORT,
          RegEvent.read REG_GLOBAL_FAULT1,
          RegEvent.read REG_GLOBAL_FAULT2,
          RegEvent.read REG_GLOBAL_FAULT3,
          RegEvent.write REG_DEVICE_STATE DEVICE_STATE_HIZ])) ∧
    (dac_event (dac_event s).2.1).2.2 = [] ∧
    (dac_event (dac_event s).2.1).1 = 0 := by
  cases h : s.is_powered with
  | false => simp [dac_event, h]
  | true => simp [dac_event, h]

/-- Witness for the power-down claim at the unpowered probe state. -/
theorem power_down_idempotent_witness :
    dac_event probeDefaultState = (0, probeDefaultState, []) :=
  (power_down_idempotent probeDefaultState).1 rfl

/-- C5: cancelling the pending boot work item before it has run leaves
powered false and adds no register traffic: the shutdown path on an
unpowered device with a pending boot clears the pending flag and leaves
the trace exactly as it was. -/
theorem cancelled_boot_no_refresh (s : SysState)
    (_hpend : s.bootPending = true) (hunp : s.dev.is_powered = false) :
    (sys_dac_event s).bootPending = false ∧
    (sys_dac_event s).dev.is_powered = false ∧
    (sys_dac_event s).trace = s.trace := by
  unfold sys_dac_event dac_event
  simp [hunp]

/-- Witness for the cancellation claim at the probe state with a boot
pending. -/
theorem cancelled_boot_no_refresh_witness :
    (sys_dac_event ⟨probeDefaultState, true, []⟩).bootPending = false ∧
    (sys_dac_event ⟨probeDefaultState, true, []⟩).dev.is_powered = false ∧
    (sys_dac_event ⟨probeDefaultState, true, []⟩).trace = [] :=
  cancelled_boot_no_refresh ⟨probeDefaultState, true, []⟩ rfl rfl
/-- C4: vol_put rejects any pair with an index outside [0, N-1] with
-EINVAL before any register access and without touching state; with valid
indices equal to the stored pair it returns 0 with zero writes; otherwise
it stores both indices, refreshes exactly when powered, and returns 1. -/
theorem vol_put_behavior (V : Variant) (s : DeviceState) (l r : Int) :
    (volume_is_valid V l = true ↔ 0 ≤ l ∧ l ≤ (V.volume.length : Int) - 1) ∧
    (¬(volume_is_valid V l = true ∧ volume_is_valid V r = true) →
      vol_put V s l r = (-22, s, [])) ∧
    (volume_is_valid V l = true → volume_is_valid V r = true →
      s.vol0 = l → s.vol1 = r → vol_put V s l r = (0, s, [])) ∧
    (volume_is_valid V l = true → volume_is_valid V r = true →
      ¬(s.vol0 = l ∧ s.vol1 = r) →
      vol_put V s l r =
        (1, { s with vol0 := l, vol1 := r },
         if s.is_powered then refresh V { s with vol0 := l, vol1 := r }
         else [])) := by
  refine ⟨?_, ?_, ?_, ?_⟩
  · simp [volume_is_valid]
  · intro h
    simp only [vol_put, if_pos h]
  · intro hl hr h0 h1
    rw [vol_put, if_neg (by simp [hl, hr]), if_pos ⟨h0, h1⟩]
  · intro hl hr hne
    rw [vol_put, if_neg (by simp [hl, hr]), if_neg hne]

/-- Witness for the volume-put claim: a negative left index is rejected
with -EINVAL and the state and trace are untouched. -/
theorem vol_put_behavior_witness :
    vol_put acm8623V probeDefaultState (-1) 0 =
      (-22, probeDefaultState, []) :=
  (vol_put_behavior acm8623V probeDefaultState (-1) 0).2.1 (by decide)

/-- C6: a present override blob is accepted exactly when its length is
even and at least 2; a present-but-invalid blob makes probe fail with
-EINVAL so no device state exists at all (hence it never boots, powered
included); an accepted blob is stored and replayed by boot in place of the
default; an absent blob leaves dsp_cfg_data null so boot replays the
built-in default. -/
theorem probe_blob_validation (d : List Nat) :
    ((i2c_probe (some d)).isOk = true ↔
      2 ≤ d.length ∧ d.length % 2 = 0) ∧
    (¬(2 ≤ d.length ∧ d.length % 2 = 0) →
      i2c_probe (some d) = Except.error (-22)) ∧
    (∀ st : DeviceState, i2c_probe (some d) = Except.ok st →
      st.dsp_cfg_data = some d ∧ st.is_powered = false) ∧
    i2c_probe none = Except.ok probeDefaultState ∧
    (∀ (V : Variant) (st : DeviceState), st.dsp_cfg_data = none →
      (do_work V st).2 =
        send_cfg V.prebootSeq ++ send_cfg V.defaultCfg ++
          refresh V { st with is_powered := true }) ∧
    (∀ (V : Variant) (st : DeviceState) (dat : List Nat),
      st.dsp_cfg_data = some dat →
      (do_work V st).2 =
        send_cfg V.prebootSeq ++ send_cfg dat ++
          refresh V { st with is_powered := true }) := by
  refine ⟨?_, ?_, ?_, rfl, ?_, ?_⟩
  · by_cases h : d.length < 2 ∨ d.length % 2 = 1
    · rw [i2c_probe, if_pos h]
      simp only [Except.isOk, Except.toBool]
      constructor
      · intro hc; cases hc
      · intro hc; omega
    · rw [i2c_probe, if_neg h]
      simp only [Except.isOk, Except.toBool]
      constructor
      · intro _; omega
      · intro _; trivial
  · intro h
    rw [i2c_probe, if_pos (by omega)]
  · intro st h
    rw [i2c_probe] at h
    by_cases hc : d.length < 2 ∨ d.length % 2 = 1
    · rw [if_pos hc] at h
      cases h
    · rw [if_neg hc] at h
      cases h
      exact ⟨rfl, rfl⟩
  · intro V st h
    simp [do_work, h]
  · intro V st dat h
    simp [do_work, h]

/-- Witness for the blob-validation claim: the spec's odd-length-3 blob is
rejected with -EINVAL. -/
theorem probe_blob_validation_witness :
    i2c_probe (some [0, 0, 0]) = Except.error (-22) :=
  (probe_blob_validation [0, 0, 0]).2.1 (by decide)
/-- Every successful probe initialises both volume indices to 110. -/
theorem i2c_probe_vol (fw : Option (List Nat)) (d : DeviceState)
    (h : i2c_probe fw = Except.ok d) : d.vol0 = 110 ∧ d.vol1 = 110 := by
  cases fw with
  | none =>
      rw [i2c_probe] at h
      cases h
      exact ⟨rfl, rfl⟩
  | some dat =>
      rw [i2c_probe] at h
      by_cases hc : dat.length < 2 ∨ dat.length % 2 = 1
      · rw [if_pos hc] at h
        cases h
      · rw [if_neg hc] at h
        cases h
        exact ⟨rfl, rfl⟩

/-- The step relation preserves volume-index bounds when the table has at
least 111 entries. -/
theorem reachable_volOK (V : Variant)
    (h111 : (110 : Int) ≤ (V.volume.length : Int) - 1) :
    ∀ s : SysState, Reachable V s → volOK V s.dev := by
  intro s h
  induction h with
  | probed fw d hp =>
      obtain ⟨h0, h1⟩ := i2c_probe_vol fw d hp
      show volOK V d
      refine ⟨?_, ?_, ?_, ?_⟩ <;> omega
  | step s t hs hst ih =>
      cases hst with
      | volPut l r =>
          show volOK V (vol_put V s.dev l r).2.1
          rw [vol_put]
          split
          · exact ih
          · split
            · exact ih
            · rename_i hvalid hne
              rw [not_not] at hvalid
              obtain ⟨hl, hr⟩ := hvalid
              rw [volume_is_valid, Bool.and_eq_true, decide_eq_true_eq,
                decide_eq_true_eq] at hl hr
              exact ⟨hl.1, hl.2, hr.1, hr.2⟩
      | muteSet m => exact ih
      | trig => exact ih
      | runBoot hb => exact ih
      | shutdown =>
          show volOK V (dac_event s.dev).2.1
          rw [dac_event]
          split
          · exact ih
          · exact ih

/-- C10: in every reachable state of either chip variant both stored
volume indices lie within [0, N-1], so the table access performed by
set_dsp_scale during every refresh is in bounds. -/
theorem reachable_volume_in_bounds (V : Variant)
    (hV : V = acm8623V ∨ V = acm8635V) (s : SysState)
    (h : Reachable V s) :
    volOK V s.dev ∧ s.dev.vol0.toNat < V.volume.length ∧
      s.dev.vol1.toNat < V.volume.length := by
  have h111 : (110 : Int) ≤ (V.volume.length : Int) - 1 := by
    rcases hV with h | h <;> subst h <;> decide
  obtain ⟨a, b, c, d⟩ := reachable_volOK V h111 s h
  exact ⟨⟨a, b, c, d⟩, by omega, by omega⟩

/-- Witness for the in-bounds claim at the freshly probed ACM8623
state. -/
theorem reachable_volume_in_bounds_witness :
    volOK acm8623V probeDefaultState ∧
    probeDefaultState.vol0.toNat < acm8623V.volume.length ∧
    probeDefaultState.vol1.toNat < acm8623V.volume.length :=
  reachable_volume_in_bounds acm8623V (Or.inl rfl)
    ⟨probeDefaultState, false, []⟩
    (Reachable.probed none probeDefaultState rfl)

end Acm
